import Mathlib

/-!
Verification development for the vintage-clothing-demo data warehouse scripts.

The definitions below are a shallow embedding of the Python sources
`load_csv_data.py`, `database_setup.py` and `main_sync.py`.  Python/pandas
cell values are modelled by the inductive type `PyVal`; functions of
`DataLoader` that can raise are embedded as `Except Unit`-valued functions,
and the `try/except` blocks of the source become explicit error handling.
-/

namespace VintageDemo

/-- Model of the Python values flowing through `DataLoader.clean_dataframe`:
`None`, the float NaN produced by pandas for missing CSV cells, booleans
(covering both `bool` and `numpy.bool_`), integers (covering `int` and
`numpy.int64`), finite floats (as exact rationals, covering `float` and
`numpy.float64`), strings, lists and string-keyed dictionaries. -/
inductive PyVal where
  | vNone : PyVal
  | vNaN : PyVal
  | vBool (b : Bool) : PyVal
  | vInt (n : Int) : PyVal
  | vFloat (q : Rat) : PyVal
  | vStr (s : String) : PyVal
  | vList (xs : List PyVal) : PyVal
  | vDict (entries : List (String × PyVal)) : PyVal
  deriving Repr

mutual

/-- Structural boolean equality on `PyVal` (Python `==` restricted to
values of identical shape, which is all the development needs). -/
def PyVal.beq : PyVal → PyVal → Bool
  | .vNone, .vNone => true
  | .vNaN, .vNaN => true
  | .vBool a, .vBool b => a == b
  | .vInt a, .vInt b => a == b
  | .vFloat a, .vFloat b => a == b
  | .vStr a, .vStr b => a == b
  | .vList xs, .vList ys => PyVal.beqList xs ys
  | .vDict xs, .vDict ys => PyVal.beqDict xs ys
  | _, _ => false

/-- Elementwise equality of lists of `PyVal`. -/
def PyVal.beqList : List PyVal → List PyVal → Bool
  | [], [] => true
  | x :: xs, y :: ys => PyVal.beq x y && PyVal.beqList xs ys
  | _, _ => false

/-- Elementwise equality of dictionary entry lists. -/
def PyVal.beqDict : List (String × PyVal) → List (String × PyVal) → Bool
  | [], [] => true
  | (k, x) :: xs, (l, y) :: ys => k == l && PyVal.beq x y && PyVal.beqDict xs ys
  | _, _ => false

end

mutual

theorem PyVal.beq_iff : ∀ a b : PyVal, PyVal.beq a b = true ↔ a = b
  | .vNone, .vNone => by simp [PyVal.beq]
  | .vNaN, .vNaN => by simp [PyVal.beq]
  | .vBool a, .vBool b => by simp [PyVal.beq]
  | .vInt a, .vInt b => by simp [PyVal.beq]
  | .vFloat a, .vFloat b => by simp [PyVal.beq]
  | .vStr a, .vStr b => by simp [PyVal.beq]
  | .vList xs, .vList ys => by
      simp only [PyVal.beq, PyVal.beqList_iff xs ys, PyVal.vList.injEq]
  | .vDict xs, .vDict ys => by
      simp only [PyVal.beq, PyVal.beqDict_iff xs ys, PyVal.vDict.injEq]
  | .vNone, .vNaN | .vNone, .vBool _ | .vNone, .vInt _ | .vNone, .vFloat _
  | .vNone, .vStr _ | .vNone, .vList _ | .vNone, .vDict _
  | .vNaN, .vNone | .vNaN, .vBool _ | .vNaN, .vInt _ | .vNaN, .vFloat _
  | .vNaN, .vStr _ | .vNaN, .vList _ | .vNaN, .vDict _
  | .vBool _, .vNone | .vBool _, .vNaN | .vBool _, .vInt _ | .vBool _, .vFloat _
  | .vBool _, .vStr _ | .vBool _, .vList _ | .vBool _, .vDict _
  | .vInt _, .vNone | .vInt _, .vNaN | .vInt _, .vBool _ | .vInt _, .vFloat _
  | .vInt _, .vStr _ | .vInt _, .vList _ | .vInt _, .vDict _
  | .vFloat _, .vNone | .vFloat _, .vNaN | .vFloat _, .vBool _ | .vFloat _, .vInt _
  | .vFloat _, .vStr _ | .vFloat _, .vList _ | .vFloat _, .vDict _
  | .vStr _, .vNone | .vStr _, .vNaN | .vStr _, .vBool _ | .vStr _, .vInt _
  | .vStr _, .vFloat _ | .vStr _, .vList _ | .vStr _, .vDict _
  | .vList _, .vNone | .vList _, .vNaN | .vList _, .vBool _ | .vList _, .vInt _
  | .vList _, .vFloat _ | .vList _, .vStr _ | .vList _, .vDict _
  | .vDict _, .vNone | .vDict _, .vNaN | .vDict _, .vBool _ | .vDict _, .vInt _
  | .vDict _, .vFloat _ | .vDict _, .vStr _ | .vDict _, .vList _ => by
      simp [PyVal.beq]

theorem PyVal.beqList_iff : ∀ xs ys : List PyVal, PyVal.beqList xs ys = true ↔ xs = ys
  | [], [] => by simp [PyVal.beqList]
  | x :: xs, y :: ys => by
      simp [PyVal.beqList, PyVal.beq_iff x y, PyVal.beqList_iff xs ys]
  | [], _ :: _ => by simp [PyVal.beqList]
  | _ :: _, [] => by simp [PyVal.beqList]

theorem PyVal.beqDict_iff :
    ∀ xs ys : List (String × PyVal), PyVal.beqDict xs ys = true ↔ xs = ys
  | [], [] => by simp [PyVal.beqDict]
  | (k, x) :: xs, (l, y) :: ys => by
      simp [PyVal.beqDict, PyVal.beq_iff x y, PyVal.beqDict_iff xs ys, and_assoc]
  | [], _ :: _ => by simp [PyVal.beqDict]
  | _ :: _, [] => by simp [PyVal.beqDict]

end

instance : DecidableEq PyVal := fun a b =>
  decidable_of_iff (PyVal.beq a b = true) (PyVal.beq_iff a b)

instance {ε α : Type} [DecidableEq ε] [DecidableEq α] :
    DecidableEq (Except ε α) := fun a b =>
  match a, b with
  | .ok x, .ok y => decidable_of_iff (x = y) (by simp)
  | .error x, .error y => decidable_of_iff (x = y) (by simp)
  | .ok _, .error _ => isFalse (by simp)
  | .error _, .ok _ => isFalse (by simp)

/-- Model of `pandas.isna` as used by `DataLoader`.  On scalars it returns
`True` exactly for `None` and NaN.  On a Python list, pandas returns a numpy
boolean array; using that array in an `if` condition (as
`_parse_list_string` and `_convert_numpy_types` do) then calls `bool()` on
it, which raises `ValueError` unless the array has exactly one element, in
which case the truth value is that of the sole entry.  The raise is modelled
by `Except.error ()`.  (An empty array also raises, as in current numpy.)
Dictionaries are treated by numpy as plain scalar objects, hence not
missing. -/
def pdIsna : PyVal → Except Unit Bool
  | .vNone => .ok true
  | .vNaN => .ok true
  | .vList xs =>
      match xs with
      | [x] => pdIsna x
      | _ => .error ()
  | _ => .ok false

mutual

/-- Number of constructors in a `PyVal`, used to bound recursion depth. -/
def pySize : PyVal → Nat
  | .vList xs => 1 + pySizeList xs
  | .vDict es => 1 + pySizeDict es
  | _ => 1

/-- Total size of a list of values. -/
def pySizeList : List PyVal → Nat
  | [] => 0
  | x :: xs => pySize x + pySizeList xs

/-- Total size of a dictionary's values. -/
def pySizeDict : List (String × PyVal) → Nat
  | [] => 0
  | e :: es => pySize e.2 + pySizeDict es

end

/-- Depth-bounded worker for `pyRepr`; the fuel is structural so the
function evaluates by kernel reduction.  `pyRepr` always supplies enough
fuel, so the `fuel = 0` branch is unreachable. -/
def pyReprAux : Nat → PyVal → String
  | 0, _ => ""
  | fuel + 1, v =>
    match v with
    | .vNone => "None"
    | .vNaN => "nan"
    | .vBool true => "True"
    | .vBool false => "False"
    | .vInt n => toString n
    | .vFloat q => toString q
    | .vStr s => "'" ++ s ++ "'"
    | .vList xs => "[" ++ String.intercalate ", " (xs.map (pyReprAux fuel)) ++ "]"
    | .vDict es =>
        "\x7b" ++ String.intercalate ", "
          (es.map fun e => "'" ++ e.1 ++ "': " ++ pyReprAux fuel e.2) ++ "\x7d"

/-- Python `repr` restricted to the values above; strings are rendered with
single quotes and no escaping, which is exact for strings containing neither
quotes nor backslashes (all inputs used in this development).  `repr` of a
float is rendered from its rational value and is never relied upon. -/
def pyRepr (v : PyVal) : String := pyReprAux (pySize v) v

/-- Python `str`: identity on strings, `repr` otherwise. -/
def pyStr : PyVal → String
  | .vStr s => s
  | v => pyRepr v

/-- Drop leading ASCII whitespace. -/
def skipWs : List Char → List Char
  | c :: cs => if c == ' ' || c == '\t' || c == '\n' || c == '\r' then skipWs cs else c :: cs
  | [] => []

/-- Read the content of a quoted string up to the closing quote `q`,
decoding the simple escapes `\\n \\t \\r \\\\ \\q`; returns the decoded
characters and the remainder after the closing quote.  Escapes outside this
set are treated as failures (a model restriction; none occur in the
fixtures). -/
def quotedChars (q : Char) : List Char → Option (List Char × List Char)
  | [] => none
  | c :: cs =>
    if c == q then some ([], cs)
    else if c == '\\' then
      match cs with
      | e :: cs2 =>
          let d : Option Char :=
            if e == 'n' then some '\n'
            else if e == 't' then some '\t'
            else if e == 'r' then some '\r'
            else if e == '\\' then some '\\'
            else if e == '\'' then some '\''
            else if e == '"' then some '"'
            else if e == '/' then some '/'
            else none
          match d with
          | some d =>
              match quotedChars q cs2 with
              | some (rest, rem) => some (d :: rest, rem)
              | none => none
          | none => none
      | [] => none
    else
      match quotedChars q cs with
      | some (rest, rem) => some (c :: rest, rem)
      | none => none

/-- Split off a maximal run of decimal digits. -/
def takeDigits : List Char → List Char × List Char
  | c :: cs =>
      if c.isDigit then
        let (ds, r) := takeDigits cs
        (c :: ds, r)
      else ([], c :: cs)
  | [] => ([], [])

/-- Numeric value of a digit run. -/
def digitsToNat (ds : List Char) : Nat :=
  ds.foldl (fun a c => a * 10 + (c.toNat - 48)) 0

/-- Parse a decimal numeral with optional fraction and exponent, after an
already-consumed sign.  Plain numerals yield Python `int`; a fraction or
exponent yields `float` (held as an exact rational).  Multi-digit numerals
with a leading zero are rejected, as in both the Python literal grammar and
JSON. -/
def parseNumber (neg : Bool) (cs : List Char) : Option (PyVal × List Char) :=
  let (ds, r) := takeDigits cs
  if ds.isEmpty then none
  else if ds.length > 1 && ds.head? == some '0' then none
  else
    let (fs, r2) :=
      match r with
      | '.' :: rf =>
          let (fs, rr) := takeDigits rf
          (fs, if fs.isEmpty then r else rr)
      | _ => ([], r)
    let hasFrac : Bool := !fs.isEmpty
    let base : Rat := ((digitsToNat (ds ++ fs) : Int) : Rat) / ((10 : Rat) ^ fs.length)
    let afterFrac := if hasFrac then r2 else r
    match afterFrac with
    | e :: re =>
        if e == 'e' || e == 'E' then
          let (esign, rs) :=
            match re with
            | '-' :: rr => (true, rr)
            | '+' :: rr => (false, rr)
            | _ => (false, re)
          let (es, rr2) := takeDigits rs
          if es.isEmpty then
            if hasFrac then some (.vFloat (if neg then -base else base), afterFrac) else none
          else
            let ex := digitsToNat es
            let scaled : Rat :=
              if esign then base / ((10 : Rat) ^ ex) else base * ((10 : Rat) ^ ex)
            some (.vFloat (if neg then -scaled else scaled), rr2)
        else if hasFrac then some (.vFloat (if neg then -base else base), afterFrac)
        else some (.vInt (if neg then -(digitsToNat ds : Int) else (digitsToNat ds : Int)), r)
    | [] =>
        if hasFrac then some (.vFloat (if neg then -base else base), [])
        else some (.vInt (if neg then -(digitsToNat ds : Int) else (digitsToNat ds : Int)), r)

mutual

/-- One Python literal expression: a quoted string, a signed numeral,
`True`/`False`/`None`, or a bracketed list.  This models the fragment of
`ast.literal_eval`'s grammar exercised by the CSV fixtures; tuple, dict,
set, hex/binary/underscore numerals and string-prefix forms are treated as
failures (they would make the embedding's fallback fire where CPython would
succeed, and no such input is used in any theorem below). -/
def parseLitVal : Nat → List Char → Option (PyVal × List Char)
  | 0, _ => none
  | fuel + 1, cs =>
    match cs with
    | [] => none
    | '[' :: rest => parseLitItems fuel (skipWs rest)
    | '\'' :: rest =>
        match quotedChars '\'' rest with
        | some (content, rem) => some (.vStr ⟨content⟩, rem)
        | none => none
    | '"' :: rest =>
        match quotedChars '"' rest with
        | some (content, rem) => some (.vStr ⟨content⟩, rem)
        | none => none
    | '-' :: rest => parseNumber true rest
    | '+' :: rest => parseNumber false rest
    | 'T' :: 'r' :: 'u' :: 'e' :: rest => some (.vBool true, rest)
    | 'F' :: 'a' :: 'l' :: 's' :: 'e' :: rest => some (.vBool false, rest)
    | 'N' :: 'o' :: 'n' :: 'e' :: rest => some (.vNone, rest)
    | c :: _ => if c.isDigit then parseNumber false cs else none

/-- The items of a bracketed list literal, the opening bracket already
consumed and whitespace skipped; allows a trailing comma as Python does. -/
def parseLitItems : Nat → List Char → Option (PyVal × List Char)
  | 0, _ => none
  | fuel + 1, cs =>
    match cs with
    | ']' :: rest => some (.vList [], rest)
    | _ =>
      match parseLitVal fuel cs with
      | none => none
      | some (v, r) =>
        match skipWs r with
        | ',' :: r2 =>
            match parseLitItems fuel (skipWs r2) with
            | some (.vList vs, rem) => some (.vList (v :: vs), rem)
            | _ => none
        | ']' :: r2 => some (.vList [v], r2)
        | _ => none

end

/-- Model of `ast.literal_eval` as called by `_parse_list_string`: parse one
literal expression and require that nothing but whitespace follows;
`none` models the exception CPython raises on malformed input. -/
def literalEval (s : String) : Option PyVal :=
  match parseLitVal (2 * s.length + 2) (skipWs s.data) with
  | some (v, rest) => if (skipWs rest).isEmpty then some v else none
  | none => none

/-- Python `value.startswith('[')`. -/
def startsWithLb (s : String) : Bool :=
  match s.data with
  | '[' :: _ => true
  | _ => false

/-- Python `value.endswith(']')`. -/
def endsWithRb (s : String) : Bool :=
  match s.data.getLast? with
  | some ']' => true
  | _ => false

/-- The body of the `try` block of `DataLoader._parse_list_string`,
statement by statement: the missing-value test (whose `pd.isna` call can
itself raise on list input, see `pdIsna`), the already-a-list test, the
bracketed-string parse via `ast.literal_eval` (whose failure raises), the
wrapping of a bare scalar string, and the final `return value` for any
other scalar. -/
def parseListTry (v : PyVal) : Except Unit PyVal := do
  let isna ← pdIsna v
  if isna then return .vNone
  match v with
  | .vList xs => return .vList xs
  | .vStr s =>
      if startsWithLb s && endsWithRb s then
        match literalEval s with
        | some r => return r
        | none => throw ()
      else return (.vList [.vStr s])
  | other => return other

/-- `DataLoader._parse_list_string`: the try body above with the
`except Exception` fallback `[str(value)] if value is not None else None`. -/
def parse_list_string (v : PyVal) : PyVal :=
  match parseListTry v with
  | .ok r => r
  | .error _ => if v = .vNone then .vNone else .vList [.vStr (pyStr v)]

mutual

/-- One JSON value, modelling `json.loads`: double-quoted strings, signed
numerals with optional fraction and exponent, `true`/`false`/`null`, arrays
and objects.  (`\uXXXX` escapes and the Python extensions `NaN`/`Infinity`
are treated as failures; none occur in the fixtures or in any theorem.) -/
def parseJsonVal : Nat → List Char → Option (PyVal × List Char)
  | 0, _ => none
  | fuel + 1, cs =>
    match cs with
    | [] => none
    | '"' :: rest =>
        match quotedChars '"' rest with
        | some (content, rem) => some (.vStr ⟨content⟩, rem)
        | none => none
    | '[' :: rest =>
        match parseJsonItems fuel true (skipWs rest) with
        | some (vs, rem) => some (.vList vs, rem)
        | none => none
    | '\x7b' :: rest =>
        match parseJsonMembers fuel true (skipWs rest) with
        | some (es, rem) => some (.vDict es, rem)
        | none => none
    | 't' :: 'r' :: 'u' :: 'e' :: rest => some (.vBool true, rest)
    | 'f' :: 'a' :: 'l' :: 's' :: 'e' :: rest => some (.vBool false, rest)
    | 'n' :: 'u' :: 'l' :: 'l' :: rest => some (.vNone, rest)
    | '-' :: rest => parseNumber true rest
    | c :: _ => if c.isDigit then parseNumber false cs else none

/-- The items of a JSON array, the opening bracket consumed and whitespace
skipped; `allowEnd` is true only before the first item, so that `[]` parses
but a trailing comma does not. -/
def parseJsonItems : Nat → Bool → List Char → Option (List PyVal × List Char)
  | 0, _, _ => none
  | fuel + 1, allowEnd, cs =>
    match cs with
    | ']' :: rest => if allowEnd then some ([], rest) else none
    | _ =>
      match parseJsonVal fuel cs with
      | none => none
      | some (v, r) =>
        match skipWs r with
        | ',' :: r2 =>
            match parseJsonItems fuel false (skipWs r2) with
            | some (vs, rem) => some (v :: vs, rem)
            | none => none
        | ']' :: r2 => some ([v], r2)
        | _ => none

/-- The members of a JSON object, the opening brace consumed and whitespace
skipped; `allowEnd` as in `parseJsonItems`. -/
def parseJsonMembers :
    Nat → Bool → List Char → Option (List (String × PyVal) × List Char)
  | 0, _, _ => none
  | fuel + 1, allowEnd, cs =>
    match cs with
    | '\x7d' :: rest => if allowEnd then some ([], rest) else none
    | '"' :: rest =>
        match quotedChars '"' rest with
        | none => none
        | some (key, r) =>
          match skipWs r with
          | ':' :: r2 =>
            match parseJsonVal fuel (skipWs r2) with
            | none => none
            | some (v, r3) =>
              match skipWs r3 with
              | ',' :: r4 =>
                  match parseJsonMembers fuel false (skipWs r4) with
                  | some (es, rem) => some ((⟨key⟩, v) :: es, rem)
                  | none => none
              | '\x7d' :: r4 => some ([(⟨key⟩, v)], r4)
              | _ => none
          | _ => none
    | _ => none

end

/-- Model of `json.loads` as called by `_parse_json_string`: parse one JSON
value and require only whitespace after it; `none` models
`json.JSONDecodeError`. -/
def jsonLoads (s : String) : Option PyVal :=
  match parseJsonVal (2 * s.length + 2) (skipWs s.data) with
  | some (v, rest) => if (skipWs rest).isEmpty then some v else none
  | none => none

/-- `DataLoader._parse_json_string`, statement by statement.  The
missing-value test `pd.isna(value)` sits outside any `try`, so its
`ValueError` on list input propagates (hence the `Except`); only the
`json.loads` call is guarded, and its failure returns `None`. -/
def parse_json_string (v : PyVal) : Except Unit PyVal := do
  let isna ← pdIsna v
  if isna then return .vNone
  match v with
  | .vDict d => return .vDict d
  | .vStr s =>
      match jsonLoads s with
      | some r => return r
      | none => return .vNone
  | other => return other

/-- `DataLoader._convert_numpy_types`.  The leading `pd.isna(value)` test is
unguarded, so a multi-element list raises `ValueError` (see `pdIsna`); NaN
becomes `None` there, before the numeric branches run.  The numpy-scalar
branches (`int(value)`, `float(value)`, `bool(value)`) are identities in
this model, which represents `numpy.int64`/`float64`/`bool_` and their
Python counterparts by the same constructors; the ndarray branch has no
counterpart because no ndarray-valued cell arises in the pipeline. -/
def convert_numpy_types (v : PyVal) : Except Unit PyVal := do
  let isna ← pdIsna v
  if isna then return .vNone
  match v with
  | .vList xs => return .vList xs
  | other => return other

/-- Python truthiness, the elementwise meaning of `.astype(bool)` on an
object column: `bool(None)` is `False`, `bool(nan)` is `True`, numbers are
truthy unless zero, containers and strings unless empty. -/
def pyTruth : PyVal → Bool
  | .vNone => false
  | .vNaN => true
  | .vBool b => b
  | .vInt n => !(n == 0)
  | .vFloat q => !(q == 0)
  | .vStr s => !s.isEmpty
  | .vList xs => !xs.isEmpty
  | .vDict es => !es.isEmpty

/-- The `list_columns` table of `clean_dataframe` (step 2). -/
def list_columns (table : String) : List String :=
  if table == "customers" then ["preferred_eras", "preferred_styles", "preferred_sizes"]
  else if table == "inventory_items" then ["photo_urls", "tags"]
  else if table == "social_media_posts" then ["hashtags", "mentions"]
  else []

/-- The `bool_columns` table of `clean_dataframe` (step 4). -/
def bool_columns (table : String) : List String :=
  if table == "locations" then ["is_active"]
  else if table == "inventory_items" then ["is_one_of_a_kind"]
  else if table == "social_media_accounts" then ["is_active"]
  else if table == "social_media_posts" then ["is_promotional"]
  else if table == "post_items_featured" then ["is_primary_item"]
  else []

/-- Whether `clean_dataframe` treats `col` of `table` as an array column. -/
def isListColumn (table col : String) : Bool := decide (col ∈ list_columns table)

/-- Whether `clean_dataframe` treats `col` of `table` as a boolean column. -/
def isBoolColumn (table col : String) : Bool := decide (col ∈ bool_columns table)

/-- Step 1 of `clean_dataframe`: the `replace` call taking `np.nan` to
`None`, elementwise. -/
def replaceNanNone (v : PyVal) : PyVal := if v = .vNaN then .vNone else v

/-- The effect of `DataLoader.clean_dataframe` on one cell of column `col`
of table `table`: step 1 (NaN to `None`), step 2 (`_parse_list_string` on
declared array columns), step 3 (`_parse_json_string` on
`inventory_items.measurements`), step 4 (`.astype(bool)` on declared
boolean columns), and step 5 (`_convert_numpy_types` on every column except
the array columns, which are explicitly skipped).  In the source, step 5
dispatches on the column dtype, but both the object branch and the numeric
branch apply `_convert_numpy_types` to each element, so per cell the
dispatch is immaterial.  Cells are independent, so the per-column order of
the source loops does not affect the value computed here. -/
def cleanCell (table col : String) (v : PyVal) : Except Unit PyVal := do
  let v1 := replaceNanNone v
  let v2 := if isListColumn table col then parse_list_string v1 else v1
  let v3 ←
    if table == "inventory_items" && col == "measurements" then parse_json_string v2
    else pure v2
  let v4 := if isBoolColumn table col then PyVal.vBool (pyTruth v3) else v3
  if isListColumn table col then
    return v4
  else
    convert_numpy_types v4

/-- A pandas DataFrame, column-major: column name with its cells. -/
abbrev DataFrame := List (String × List PyVal)

/-- Step 1 of `clean_dataframe` at frame level: the `replace` call taking
`np.nan` to `None` over the whole frame. -/
def cleanStep1 (d : DataFrame) : DataFrame :=
  d.map fun c => (c.1, c.2.map replaceNanNone)

/-- Step 2: `df_clean[col] = df_clean[col].apply(self._parse_list_string)`
for each declared array column present in the frame. -/
def cleanStep2 (table : String) (d : DataFrame) : DataFrame :=
  d.map fun c =>
    if isListColumn table c.1 then (c.1, c.2.map parse_list_string) else c

/-- Step 3: `_parse_json_string` over `inventory_items.measurements`; the
`pd.isna` inside can raise, which propagates out of `clean_dataframe`. -/
def cleanStep3 (table : String) (d : DataFrame) : Except Unit DataFrame :=
  d.mapM fun c =>
    if table == "inventory_items" && c.1 == "measurements" then do
      let vs ← c.2.mapM parse_json_string
      return (c.1, vs)
    else
      pure c

/-- Step 4: `df_clean[col] = df_clean[col].astype(bool)` on declared
boolean columns. -/
def cleanStep4 (table : String) (d : DataFrame) : DataFrame :=
  d.map fun c =>
    if isBoolColumn table c.1 then (c.1, c.2.map fun v => PyVal.vBool (pyTruth v)) else c

/-- Step 5: `_convert_numpy_types` over every column except the declared
array columns, which the loop skips with `continue`.  (The source
dispatches on the column dtype, but the object branch and the numeric
branch both apply `_convert_numpy_types` elementwise.) -/
def cleanStep5 (table : String) (d : DataFrame) : Except Unit DataFrame :=
  d.mapM fun c =>
    if isListColumn table c.1 then pure c
    else do
      let vs ← c.2.mapM convert_numpy_types
      return (c.1, vs)

/-- `DataLoader.clean_dataframe`, assignment by assignment.  The first
statement is `df_clean = df.copy()`: pandas copies the frame's data, so
`df_clean` starts as the value of `df`, and every later assignment rebinds
or mutates `df_clean` only.  The returned pair is (the caller's `df` as the
call leaves it, the result or the propagated exception). -/
def clean_dataframe (df : DataFrame) (table : String) :
    DataFrame × Except Unit DataFrame :=
  let df_clean := df
  let df_clean := cleanStep1 df_clean
  let df_clean := cleanStep2 table df_clean
  let result := do
    let d3 ← cleanStep3 table df_clean
    let d4 := cleanStep4 table d3
    cleanStep5 table d4
  (df, result)

/-- Observable transaction actions of one `load_table` call. -/
inductive DbEvent where
  | commit (table : String) : DbEvent
  | rollback (table : String) : DbEvent
  deriving DecidableEq, Repr

/-- The environment a load runs in: which CSV files exist on disk (by file
name) and which table batches go through without an exception (reading,
cleaning, inserting and committing for that table). -/
structure LoadEnv where
  fileExists : String → Bool
  batchOk : String → Bool

/-- `DataLoader.load_table`: fail fast when the connection is missing, skip
with failure when the CSV file is absent, otherwise run the batch inside
`try`, committing on success and rolling back that table's transaction on
any exception.  The returned events are the transaction actions taken. -/
def load_table (connOk : Bool) (env : LoadEnv) (table csvFile : String) :
    Bool × List DbEvent :=
  if !connOk then (false, [])
  else if !(env.fileExists csvFile) then (false, [])
  else if env.batchOk table then (true, [.commit table])
  else (false, [.rollback table])

/-- The fixed `load_order` of `DataLoader.load_all_data`: independent
tables, then tables with foreign keys to them, then junction tables. -/
def load_order : List (String × String) :=
  [("locations", "locations.csv"),
   ("customers", "customers.csv"),
   ("inventory_items", "inventory_items.csv"),
   ("social_media_accounts", "social_media_accounts.csv"),
   ("orders", "orders.csv"),
   ("payments", "payments.csv"),
   ("social_media_posts", "social_media_posts.csv"),
   ("market_performance", "market_performance.csv"),
   ("order_items", "order_items.csv"),
   ("social_media_metrics", "social_media_metrics.csv"),
   ("post_items_featured", "post_items_featured.csv")]

/-- The loop of `load_all_data`: every entry is attempted in order, with no
early exit; per-table results and the accumulated transaction events. -/
def runLoadOrder (connOk : Bool) (env : LoadEnv) :
    List (String × String) → List Bool × List DbEvent
  | [] => ([], [])
  | (t, f) :: rest =>
      let r := load_table connOk env t f
      let (rs, evs) := runLoadOrder connOk env rest
      (r.1 :: rs, r.2 ++ evs)

/-- What `load_all_data` reports and returns. -/
structure LoadSummary where
  successCount : Nat
  totalCount : Nat
  allOk : Bool
  events : List DbEvent
  deriving DecidableEq, Repr

/-- `DataLoader.load_all_data`: run the fixed order, report
`success_count/total_count`, and return `True` exactly when
`success_count == total_count`.  (On full success it additionally runs the
read-only integrity checks, which touch no state modelled here.) -/
def load_all_data (connOk : Bool) (env : LoadEnv) : LoadSummary :=
  let r := runLoadOrder connOk env load_order
  { successCount := r.1.count true
    totalCount := load_order.length
    allOk := r.1.count true == load_order.length
    events := r.2 }

/-- The tables of `load_order`, in loading position. -/
def loadOrderTables : List String := load_order.map Prod.fst

/-- The foreign-key references declared by `create_tables` in
`database_setup.py`: each pair is (referencing table, referenced table),
one entry per `REFERENCES` clause. -/
def fkReferences : List (String × String) :=
  [("inventory_location_tracking", "inventory_items"),
   ("inventory_location_tracking", "locations"),
   ("orders", "customers"),
   ("orders", "locations"),
   ("order_items", "orders"),
   ("order_items", "inventory_items"),
   ("payments", "orders"),
   ("social_media_posts", "social_media_accounts"),
   ("post_items_featured", "social_media_posts"),
   ("post_items_featured", "inventory_items"),
   ("social_media_metrics", "social_media_posts"),
   ("market_performance", "locations"),
   ("social_media_attribution", "customers"),
   ("social_media_attribution", "orders"),
   ("social_media_attribution", "social_media_posts")]

/-- Exit behavior of `main` in `load_csv_data.py`.  `sys.exit(1)` happens
only when `connect_db` fails.  Otherwise the script runs the integrity
checks (with `--check-only`) or `load_all_data`, whose boolean result is
consulted only to decide whether insights run; `main` then falls through
the `try/finally` and returns, so the process exits 0 regardless of how
many tables failed.  Returns (exit code, the load summary if a load ran). -/
def loadCsvMain (connectOk checkOnly : Bool) (env : LoadEnv) :
    Nat × Option LoadSummary :=
  if !connectOk then (1, none)
  else if checkOnly then (0, none)
  else (0, some (load_all_data true env))

/-- Exit code of the orchestrator commands in `main_sync.py.__main__`:
`sys.exit(0 if success else 1)`, identically for `full` (result of
`full_synchronization`), `quick` (result of `quick_sync`) and `health`
(the `overall` flag of `health_check`). -/
def orchestratorExitCode (success : Bool) : Nat := if success then 0 else 1

/-- The phases of `MasterDataSync.full_synchronization`, in execution
order. -/
inductive SyncStep where
  | square : SyncStep
  | social : SyncStep
  | analytics : SyncStep
  deriving DecidableEq, Repr

/-- `MasterDataSync.full_synchronization`.  Adapter results are
`Option Bool`: `some b` when `full_sync()` returned `b`, `none` when it
raised (the surrounding `try` then catches and returns `False`, skipping
the rest of the body).  The analytics phase runs only when both adapters
returned `True`; if it raises, `generate_cross_platform_analytics`
re-raises and the outer `except` returns `False`.  The trace lists the
phases that were started, in order. -/
def full_synchronization (squareResult socialResult : Option Bool)
    (analyticsOk : Bool) : Bool × List SyncStep :=
  match squareResult with
  | none => (false, [.square])
  | some sq =>
    match socialResult with
    | none => (false, [.square, .social])
    | some so =>
      if sq && so then
        if analyticsOk then (true, [.square, .social, .analytics])
        else (false, [.square, .social, .analytics])
      else (false, [.square, .social])

/-- Exit code of `python main_sync.py full`. -/
def mainSyncFullExitCode (squareResult socialResult : Option Bool)
    (analyticsOk : Bool) : Nat :=
  orchestratorExitCode (full_synchronization squareResult socialResult analyticsOk).1

theorem parseListTry_str (s : String) :
    parseListTry (.vStr s) =
      if startsWithLb s && endsWithRb s then
        match literalEval s with
        | some r => .ok r
        | none => .error ()
      else .ok (.vList [.vStr s]) := rfl

theorem parse_list_string_str_plain (s : String)
    (h : (startsWithLb s && endsWithRb s) = false) :
    parse_list_string (.vStr s) = .vList [.vStr s] := by
  unfold parse_list_string
  rw [parseListTry_str, h]
  simp

theorem parse_list_string_str_lit (s : String) (r : PyVal)
    (h1 : (startsWithLb s && endsWithRb s) = true) (h2 : literalEval s = some r) :
    parse_list_string (.vStr s) = r := by
  unfold parse_list_string
  rw [parseListTry_str, h1, h2]
  simp

theorem parse_list_string_str_fail (s : String)
    (h1 : (startsWithLb s && endsWithRb s) = true) (h2 : literalEval s = none) :
    parse_list_string (.vStr s) = .vList [.vStr s] := by
  unfold parse_list_string
  rw [parseListTry_str, h1, h2]
  simp [pyStr]

theorem parse_list_string_singleton (x : PyVal) (h : pdIsna x = .ok false) :
    parse_list_string (.vList [x]) = .vList [x] := by
  unfold parse_list_string parseListTry
  simp only [pdIsna, h]
  rfl

theorem parse_list_string_multi (x y : PyVal) (ys : List PyVal) :
    parse_list_string (.vList (x :: y :: ys)) =
      .vList [.vStr (pyStr (.vList (x :: y :: ys)))] := by
  unfold parse_list_string parseListTry
  rfl

/-- An array column is never a boolean column and never the
`measurements` column: the three `list_columns` tables and the
`bool_columns` tables are disjoint in the source. -/
theorem list_col_props (table col : String) (h : isListColumn table col = true) :
    isBoolColumn table col = false ∧
      (table == "inventory_items" && col == "measurements") = false := by
  unfold isListColumn list_columns at h
  split at h
  next ht =>
    rw [beq_iff_eq] at ht
    subst ht
    simp at h
    rcases h with h | h | h <;> subst h <;> exact ⟨by decide, by decide⟩
  next ht1 =>
    split at h
    next ht =>
      rw [beq_iff_eq] at ht
      subst ht
      simp at h
      rcases h with h | h <;> subst h <;> exact ⟨by decide, by decide⟩
    next ht2 =>
      split at h
      next ht =>
        rw [beq_iff_eq] at ht
        subst ht
        simp at h
        rcases h with h | h <;> subst h <;> exact ⟨by decide, by decide⟩
      next => simp at h

/-- On an array column, `clean_dataframe` is step 1 followed by
`_parse_list_string`: the JSON, boolean and numpy-conversion steps do not
apply there. -/
theorem cleanCell_list_col (table col : String) (h : isListColumn table col = true)
    (v : PyVal) :
    cleanCell table col v = .ok (parse_list_string (replaceNanNone v)) := by
  obtain ⟨hb, hm⟩ := list_col_props table col h
  unfold cleanCell
  rw [h, hm, hb]
  rfl

theorem replaceNanNone_str (s : String) : replaceNanNone (.vStr s) = .vStr s := rfl

theorem replaceNanNone_list (xs : List PyVal) :
    replaceNanNone (.vList xs) = .vList xs := rfl

/-- Missing/NaN cells of a non-boolean column clean to `None`: step 1 turns
NaN into `None`, and the array, JSON and numpy-conversion steps all map
`None` to `None`. -/
theorem cleanCell_nan_not_bool (table col : String)
    (hb : isBoolColumn table col = false) :
    cleanCell table col .vNaN = .ok .vNone := by
  by_cases hl : isListColumn table col = true
  · rw [cleanCell_list_col table col hl]
    rfl
  · simp only [Bool.not_eq_true] at hl
    unfold cleanCell
    rw [hl, hb]
    by_cases hm : (table == "inventory_items" && col == "measurements") = true
    · rw [hm]
      rfl
    · simp only [Bool.not_eq_true] at hm
      rw [hm]
      rfl

/-- Missing/NaN cells of a boolean column clean to `False`: step 1 turns
NaN into `None`, and `.astype(bool)` turns `None` into `bool(None) =
False`, which the numpy-conversion step preserves. -/
theorem cleanCell_nan_bool (table col : String)
    (hb : isBoolColumn table col = true) :
    cleanCell table col .vNaN = .ok (.vBool false) := by
  by_cases hl : isListColumn table col = true
  · exact absurd (list_col_props table col hl).1 (by simp [hb])
  · simp only [Bool.not_eq_true] at hl
    unfold cleanCell
    rw [hl, hb]
    by_cases hm : (table == "inventory_items" && col == "measurements") = true
    · obtain ⟨ht, hc⟩ := Bool.and_eq_true_iff.mp hm
      rw [beq_iff_eq] at ht hc
      subst ht
      subst hc
      exact absurd hb (by decide)
    · simp only [Bool.not_eq_true] at hm
      rw [hm]
      rfl

/-- C1: three parts of the claim fail on the code.  Idempotence on clean
sequences fails: for a native list with more than one element,
`pd.isna(value)` returns a multi-element boolean array whose use in `if`
raises `ValueError`, the `except Exception` fallback fires, and the clean
two-element list `['a', 'b']` comes back as the one-element list containing
its `str()` form.  The sequence-of-strings conclusion also fails outside
string inputs: a bare non-string scalar (here the integer 5, as pandas
reads a numeric column) is returned unchanged rather than wrapped into a
sequence, and the string-encoded literal `"[1, 2]"` is normalized to a
sequence of integers, not of strings. -/
theorem c1_clean_list_counterexample :
    cleanCell "customers" "preferred_eras" (.vList [.vStr "a", .vStr "b"]) =
      .ok (.vList [.vStr "['a', 'b']"])
    ∧ cleanCell "customers" "preferred_eras" (.vList [.vStr "a", .vStr "b"]) ≠
      .ok (.vList [.vStr "a", .vStr "b"])
    ∧ cleanCell "customers" "preferred_eras" (.vInt 5) = .ok (.vInt 5)
    ∧ cleanCell "customers" "preferred_eras" (.vStr "[1, 2]") =
      .ok (.vList [.vInt 1, .vInt 2]) := by
  decide

/-- C1 (amended): on a declared array column, cleaning a non-bracketed
scalar string wraps it in a one-element sequence of strings; a bracketed
string literal whose elements are string literals is normalized to exactly
that sequence of strings; a native list with exactly one non-missing
element is returned unchanged; and a native list with two or more elements
is not returned unchanged but collapses, via the internal `pd.isna`
ValueError and the exception fallback, to the one-element sequence of
strings containing its `str()` form. -/
theorem c1_array_cleaning_amended :
    ∀ table col, isListColumn table col = true →
      (∀ s : String, (startsWithLb s && endsWithRb s) = false →
        cleanCell table col (.vStr s) = .ok (.vList [.vStr s]))
      ∧ (∀ (s : String) (ss : List String), (startsWithLb s && endsWithRb s) = true →
        literalEval s = some (.vList (ss.map PyVal.vStr)) →
        cleanCell table col (.vStr s) = .ok (.vList (ss.map PyVal.vStr)))
      ∧ (∀ x : PyVal, pdIsna x = .ok false →
        cleanCell table col (.vList [x]) = .ok (.vList [x]))
      ∧ (∀ (x y : PyVal) (ys : List PyVal),
        cleanCell table col (.vList (x :: y :: ys)) =
          .ok (.vList [.vStr (pyStr (.vList (x :: y :: ys)))])) := by
  intro table col h
  refine ⟨?_, ?_, ?_, ?_⟩
  · intro s hs
    rw [cleanCell_list_col table col h, replaceNanNone_str,
      parse_list_string_str_plain s hs]
  · intro s ss hs hl
    rw [cleanCell_list_col table col h, replaceNanNone_str,
      parse_list_string_str_lit s (.vList (ss.map PyVal.vStr)) hs hl]
  · intro x hx
    rw [cleanCell_list_col table col h, replaceNanNone_list,
      parse_list_string_singleton x hx]
  · intro x y ys
    rw [cleanCell_list_col table col h, replaceNanNone_list,
      parse_list_string_multi]

/-- Closed instances of `c1_array_cleaning_amended` at concrete inputs,
one per conjunct; every output is a sequence of strings. -/
theorem c1_array_cleaning_amended_witness :
    cleanCell "customers" "preferred_eras" (.vStr "1970s") = .ok (.vList [.vStr "1970s"])
    ∧ cleanCell "customers" "preferred_eras" (.vStr "['1970s', '1980s']") =
      .ok (.vList [.vStr "1970s", .vStr "1980s"])
    ∧ cleanCell "inventory_items" "tags" (.vList [.vStr "boho"]) =
      .ok (.vList [.vStr "boho"])
    ∧ cleanCell "social_media_posts" "hashtags" (.vList [.vStr "a", .vStr "b"]) =
      .ok (.vList [.vStr "['a', 'b']"]) :=
  ⟨(c1_array_cleaning_amended "customers" "preferred_eras" (by decide)).1
      "1970s" (by decide),
   (c1_array_cleaning_amended "customers" "preferred_eras" (by decide)).2.1
      "['1970s', '1980s']" ["1970s", "1980s"] (by decide) (by decide),
   (c1_array_cleaning_amended "inventory_items" "tags" (by decide)).2.2.1
      (.vStr "boho") (by decide),
   (c1_array_cleaning_amended "social_media_posts" "hashtags" (by decide)).2.2.2
      (.vStr "a") (.vStr "b") []⟩

/-- C2: the spec claims every missing/NaN input cleans to NULL, but on a
declared boolean column the `.astype(bool)` step turns the `None` produced
by step 1 into `bool(None) = False`, a non-NULL boolean. -/
theorem c2_bool_nan_counterexample :
    cleanCell "locations" "is_active" .vNaN = .ok (.vBool false)
    ∧ cleanCell "locations" "is_active" .vNaN ≠ .ok .vNone := by
  decide

/-- C2 (amended): a missing/NaN cell cleans to NULL in every column except
the declared boolean columns, where the boolean coercion turns it into
`False`; in no column does a missing value become a string. -/
theorem c2_missing_to_null_amended :
    (∀ table col, isBoolColumn table col = false →
      cleanCell table col .vNaN = .ok .vNone)
    ∧ (∀ table col, isBoolColumn table col = true →
      cleanCell table col .vNaN = .ok (.vBool false))
    ∧ (∀ table col s, cleanCell table col .vNaN ≠ .ok (.vStr s)) := by
  refine ⟨cleanCell_nan_not_bool, cleanCell_nan_bool, ?_⟩
  intro table col s hcontra
  by_cases hb : isBoolColumn table col = true
  · rw [cleanCell_nan_bool table col hb] at hcontra
    exact absurd (Except.ok.inj hcontra) (by intro h; cases h)
  · simp only [Bool.not_eq_true] at hb
    rw [cleanCell_nan_not_bool table col hb] at hcontra
    exact absurd (Except.ok.inj hcontra) (by intro h; cases h)

/-- Closed instances of `c2_missing_to_null_amended` at concrete columns. -/
theorem c2_missing_to_null_amended_witness :
    cleanCell "orders" "total_amount" .vNaN = .ok .vNone
    ∧ cleanCell "locations" "is_active" .vNaN = .ok (.vBool false)
    ∧ cleanCell "customers" "email" .vNaN ≠ .ok (.vStr "nan") :=
  ⟨c2_missing_to_null_amended.1 "orders" "total_amount" (by decide),
   c2_missing_to_null_amended.2.1 "locations" "is_active" (by decide),
   c2_missing_to_null_amended.2.2 "customers" "email" "nan"⟩

/-- The loop of `load_all_data` attempts every entry: its result list is
the per-table `load_table` outcomes in order, and its event log is their
concatenation. -/
theorem runLoadOrder_spec (connOk : Bool) (env : LoadEnv) :
    ∀ l : List (String × String),
      (runLoadOrder connOk env l).1 = l.map (fun p => (load_table connOk env p.1 p.2).1)
      ∧ (runLoadOrder connOk env l).2 =
        (l.map fun p => (load_table connOk env p.1 p.2).2).flatten := by
  intro l
  induction l with
  | nil => exact ⟨rfl, rfl⟩
  | cons p rest ih =>
      cases p with
      | mk t f => simp [runLoadOrder, ih.1, ih.2]

/-- C3: per-table failure isolation and the overall result.  A table whose
batch raises is rolled back (only its own transaction) and reported as
failed; a table whose batch commits is reported as succeeded; the summary
reports succeeded over attempted with every table attempted; and the load
returns `True` exactly when every table in the order succeeded. -/
theorem c3_failure_isolation_and_ratio :
    ∀ env : LoadEnv,
      ((load_all_data true env).allOk = true ↔
        ∀ p ∈ load_order, (load_table true env p.1 p.2).1 = true)
      ∧ (load_all_data true env).totalCount = load_order.length
      ∧ (load_all_data true env).successCount =
        ((load_order.map fun p => (load_table true env p.1 p.2).1).count true)
      ∧ (∀ t f, env.fileExists f = true → env.batchOk t = false →
        load_table true env t f = (false, [.rollback t]))
      ∧ (∀ t f, env.fileExists f = true → env.batchOk t = true →
        load_table true env t f = (true, [.commit t])) := by
  intro env
  have hres := (runLoadOrder_spec true env load_order).1
  refine ⟨?_, rfl, ?_, ?_, ?_⟩
  · show ((runLoadOrder true env load_order).1.count true == load_order.length) = true ↔ _
    rw [hres, beq_iff_eq]
    rw [show load_order.length =
      (load_order.map fun p => (load_table true env p.1 p.2).1).length from
      (List.length_map _ _).symm]
    rw [List.count_eq_length]
    constructor
    · intro hall p hp
      exact (hall _ (List.mem_map_of_mem _ hp)).symm
    · intro hall b hb
      obtain ⟨p, hp, rfl⟩ := List.mem_map.mp hb
      exact (hall p hp).symm
  · show (runLoadOrder true env load_order).1.count true = _
    rw [hres]
  · intro t f h1 h2
    simp [load_table, h1, h2]
  · intro t f h1 h2
    simp [load_table, h1, h2]

/-- An environment in which only the `orders` batch raises. -/
def envOrdersFail : LoadEnv := ⟨fun _ => true, fun t => !(t == "orders")⟩

/-- Closed instances of `c3_failure_isolation_and_ratio`: with only the
`orders` batch raising, that table rolls back and fails while `locations`
commits and succeeds. -/
theorem c3_failure_isolation_witness :
    load_table true envOrdersFail "orders" "orders.csv" = (false, [.rollback "orders"])
    ∧ load_table true envOrdersFail "locations" "locations.csv" =
      (true, [.commit "locations"]) :=
  ⟨(c3_failure_isolation_and_ratio envOrdersFail).2.2.2.1 "orders" "orders.csv"
      (by decide) (by decide),
   (c3_failure_isolation_and_ratio envOrdersFail).2.2.2.2 "locations" "locations.csv"
      (by decide) (by decide)⟩

/-- C4: the fixed `load_order` is a topological order for the foreign-key
graph declared by `create_tables`: whenever a loaded table references
another table, the referenced table is loaded strictly earlier. -/
theorem c4_load_order_topological :
    ∀ p ∈ fkReferences, p.1 ∈ loadOrderTables →
      p.2 ∈ loadOrderTables ∧
        loadOrderTables.indexOf p.2 < loadOrderTables.indexOf p.1 := by
  decide

/-- Closed instance of `c4_load_order_topological` at the
`order_items REFERENCES orders` edge. -/
theorem c4_load_order_topological_witness :
    "orders" ∈ loadOrderTables ∧
      loadOrderTables.indexOf "orders" < loadOrderTables.indexOf "order_items" :=
  c4_load_order_topological ("order_items", "orders") (by decide) (by decide)

/-- C8: a missing CSV file makes `load_table` return failure for that table
with no database action and no exception, and the loop of `load_all_data`
still computes every table's outcome independently, in order. -/
theorem c8_missing_file_nonfatal :
    (∀ (env : LoadEnv) (t f : String), env.fileExists f = false →
      load_table true env t f = (false, []))
    ∧ ∀ env : LoadEnv, (runLoadOrder true env load_order).1 =
        load_order.map fun p => (load_table true env p.1 p.2).1 := by
  constructor
  · intro env t f h
    simp [load_table, h]
  · intro env
    exact (runLoadOrder_spec true env load_order).1

/-- An environment in which only `locations.csv` is missing. -/
def envNoLocationsCsv : LoadEnv := ⟨fun f => !(f == "locations.csv"), fun _ => true⟩

/-- Closed instances of `c8_missing_file_nonfatal`: with `locations.csv`
absent, its table fails without touching the database and all ten later
tables still load. -/
theorem c8_missing_file_nonfatal_witness :
    load_table true envNoLocationsCsv "locations" "locations.csv" = (false, [])
    ∧ (runLoadOrder true envNoLocationsCsv load_order).1 =
      [false, true, true, true, true, true, true, true, true, true, true] := by
  refine ⟨c8_missing_file_nonfatal.1 envNoLocationsCsv "locations" "locations.csv"
      (by decide), ?_⟩
  rw [c8_missing_file_nonfatal.2 envNoLocationsCsv]
  decide

/-- C5: the spec claims the CSV-loading CLI exits 1 when some table fails.
It does not: `main` in `load_csv_data.py` calls `sys.exit(1)` only when the
connection fails; with a connected database and a failed table, the load
result is only consulted for the insights step and the process exits 0. -/
theorem c5_exit_code_counterexample :
    (loadCsvMain true false envNoLocationsCsv).1 = 0
    ∧ (loadCsvMain true false envNoLocationsCsv).2.map LoadSummary.allOk = some false := by
  decide

/-- C5 (amended): the CSV-loading CLI exits 1 exactly when the database
connection fails and exits 0 otherwise even if tables failed to load,
while the orchestrator commands (`full`, `quick`, `health`) exit 0 exactly
when the operation succeeded. -/
theorem c5_exit_codes_amended :
    (∀ (checkOnly : Bool) (env : LoadEnv), (loadCsvMain true checkOnly env).1 = 0)
    ∧ (∀ (checkOnly : Bool) (env : LoadEnv), (loadCsvMain false checkOnly env).1 = 1)
    ∧ (∀ success : Bool, orchestratorExitCode success = 0 ↔ success = true)
    ∧ (∀ (sq so : Option Bool) (a : Bool),
      mainSyncFullExitCode sq so a = 0 ↔ (full_synchronization sq so a).1 = true) := by
  refine ⟨?_, ?_, ?_, ?_⟩
  · intro checkOnly env
    cases checkOnly <;> rfl
  · intro checkOnly env
    rfl
  · intro success
    cases success <;> simp [orchestratorExitCode]
  · intro sq so a
    cases h : (full_synchronization sq so a).1 <;>
      simp [mainSyncFullExitCode, orchestratorExitCode, h]

/-- Closed instances of `c5_exit_codes_amended`. -/
theorem c5_exit_codes_amended_witness :
    (loadCsvMain true false envOrdersFail).1 = 0
    ∧ (loadCsvMain false false envOrdersFail).1 = 1 :=
  ⟨c5_exit_codes_amended.1 false envOrdersFail,
   c5_exit_codes_amended.2.1 false envOrdersFail⟩

theorem parse_json_string_str (s : String) :
    parse_json_string (.vStr s) =
      match jsonLoads s with
      | some r => .ok r
      | none => .ok .vNone := rfl

/-- C6: on string input, `_parse_json_string` never lets an exception
escape: invalid JSON yields NULL via the `except json.JSONDecodeError`
branch, valid JSON yields the parsed value (a native mapping whenever the
string encodes a JSON object). -/
theorem c6_json_error_handling :
    (∀ s : String, jsonLoads s = none → parse_json_string (.vStr s) = .ok .vNone)
    ∧ (∀ (s : String) (j : PyVal), jsonLoads s = some j →
      parse_json_string (.vStr s) = .ok j)
    ∧ (∀ (s : String) (es : List (String × PyVal)), jsonLoads s = some (.vDict es) →
      parse_json_string (.vStr s) = .ok (.vDict es))
    ∧ (∀ s : String, ∃ r, parse_json_string (.vStr s) = .ok r) := by
  refine ⟨?_, ?_, ?_, ?_⟩
  · intro s h
    rw [parse_json_string_str, h]
  · intro s j h
    rw [parse_json_string_str, h]
  · intro s es h
    rw [parse_json_string_str, h]
  · intro s
    cases hj : jsonLoads s <;> rw [parse_json_string_str, hj] <;> exact ⟨_, rfl⟩

/-- Closed instances of `c6_json_error_handling`: malformed JSON becomes
NULL, and the spec's example measurements object parses to a mapping. -/
theorem c6_json_error_handling_witness :
    parse_json_string (.vStr "not json") = .ok .vNone
    ∧ parse_json_string (.vStr "\x7b\"chest\": \"36\\\"\"\x7d") =
      .ok (.vDict [("chest", .vStr "36\"")]) :=
  ⟨c6_json_error_handling.1 "not json" (by decide),
   c6_json_error_handling.2.2.1 "\x7b\"chest\": \"36\\\"\"\x7d"
      [("chest", .vStr "36\"")] (by decide)⟩

/-- C7: when `ast.literal_eval` raises on a bracketed array-column string,
`_parse_list_string` swallows the exception and returns the one-element
list holding the raw string (`str` of a `str` is itself); a `None` input
yields `None`. -/
theorem c7_malformed_literal_fallback :
    (∀ s : String, startsWithLb s = true → endsWithRb s = true →
      literalEval s = none → parse_list_string (.vStr s) = .vList [.vStr s])
    ∧ parse_list_string .vNone = .vNone := by
  constructor
  · intro s h1 h2 h3
    exact parse_list_string_str_fail s (by rw [h1, h2]; rfl) h3
  · rfl

/-- Closed instance of `c7_malformed_literal_fallback` at the malformed
literal `"[a]"` (a bare name, which `ast.literal_eval` rejects). -/
theorem c7_malformed_literal_fallback_witness :
    parse_list_string (.vStr "[a]") = .vList [.vStr "[a]"] :=
  c7_malformed_literal_fallback.1 "[a]" (by decide) (by decide) (by decide)

/-- C9: in `full_synchronization`, the analytics phase starts only after
both adapters ran, in the order Square then social media, and only when
both reported success; whenever either adapter raised or reported failure,
the analytics phase is never started. -/
theorem c9_full_sync_sequencing :
    ∀ (sq so : Option Bool) (a : Bool),
      (SyncStep.analytics ∈ (full_synchronization sq so a).2 →
        sq = some true ∧ so = some true ∧
        (full_synchronization sq so a).2 = [.square, .social, .analytics])
      ∧ ((sq = some true ∧ so = some true) →
        (full_synchronization sq so a).2 = [.square, .social, .analytics])
      ∧ ((sq ≠ some true ∨ so ≠ some true) →
        SyncStep.analytics ∉ (full_synchronization sq so a).2) := by
  intro sq so a
  rcases sq with _ | sb <;> rcases so with _ | tb <;>
    (try cases sb) <;> (try cases tb) <;> cases a <;> decide

/-- Closed instances of `c9_full_sync_sequencing`: with both adapters
succeeding the trace is Square, social, analytics; with a failing social
adapter, analytics never runs. -/
theorem c9_full_sync_sequencing_witness :
    (full_synchronization (some true) (some true) true).2 =
      [SyncStep.square, SyncStep.social, SyncStep.analytics]
    ∧ SyncStep.analytics ∉ (full_synchronization (some true) (some false) true).2 :=
  ⟨(c9_full_sync_sequencing (some true) (some true) true).2.1 ⟨rfl, rfl⟩,
   (c9_full_sync_sequencing (some true) (some false) true).2.2 (Or.inr (by decide))⟩

/-- C10: `clean_dataframe` starts with `df_clean = df.copy()` and every
later assignment targets `df_clean`, so the caller's DataFrame is returned
by the call exactly as it was passed in. -/
theorem c10_input_frame_unchanged :
    ∀ (df : DataFrame) (table : String), (clean_dataframe df table).1 = df :=
  fun _ _ => rfl

theorem if_true_bool {α : Sort 1} (a b : α) : (if (true = true) then a else b) = a := rfl

theorem if_false_bool {α : Sort 1} (a b : α) : (if (false = true) then a else b) = b := rfl

theorem exceptBind_ok {α β : Type} (a : α) (k : α → Except Unit β) :
    (Except.ok a : Except Unit α) >>= k = k a := rfl

theorem exceptBind_error {α β : Type} (e : Unit) (k : α → Except Unit β) :
    (Except.error e : Except Unit α) >>= k = Except.error e := rfl

theorem exceptMap_ok {α β : Type} (f : α → β) (a : α) :
    Except.map f (Except.ok a : Except Unit α) = .ok (f a) := rfl

theorem exceptMap_error {α β : Type} (f : α → β) (e : Unit) :
    Except.map f (Except.error e : Except Unit α) = .error e := rfl

theorem exceptPure_eq_ok {α : Type} (a : α) : (pure a : Except Unit α) = .ok a := rfl

theorem exceptMapM_one {α β : Type} (f : α → Except Unit β) (a : α) :
    List.mapM f [a] = (f a).map fun b => [b] := by
  cases h : f a <;> simp [List.mapM, List.mapM.loop, h, Except.map]

theorem cleanStep1_single (name : String) (cells : List PyVal) :
    cleanStep1 [(name, cells)] = [(name, cells.map replaceNanNone)] := rfl

theorem cleanStep2_single (table name : String) (cells : List PyVal) :
    cleanStep2 table [(name, cells)] =
      if isListColumn table name then [(name, cells.map parse_list_string)]
      else [(name, cells)] := by
  by_cases hl : isListColumn table name = true <;> simp [cleanStep2, hl]

theorem cleanStep3_single (table name : String) (cells : List PyVal) :
    cleanStep3 table [(name, cells)] =
      if table == "inventory_items" && name == "measurements" then
        (cells.mapM parse_json_string).map fun vs => [(name, vs)]
      else .ok [(name, cells)] := by
  unfold cleanStep3
  rw [exceptMapM_one]
  by_cases hm : (table == "inventory_items" && name == "measurements") = true
  · simp only [hm, if_true]
    cases h : cells.mapM parse_json_string <;> simp [h, Except.map]
  · simp only [Bool.not_eq_true] at hm
    simp only [hm, Bool.false_eq_true, if_false]
    rfl

theorem cleanStep4_single (table name : String) (cells : List PyVal) :
    cleanStep4 table [(name, cells)] =
      if isBoolColumn table name then
        [(name, cells.map fun v => PyVal.vBool (pyTruth v))]
      else [(name, cells)] := by
  by_cases hb : isBoolColumn table name = true <;> simp [cleanStep4, hb]

theorem cleanStep5_single (table name : String) (cells : List PyVal) :
    cleanStep5 table [(name, cells)] =
      if isListColumn table name then .ok [(name, cells)]
      else (cells.mapM convert_numpy_types).map fun vs => [(name, vs)] := by
  unfold cleanStep5
  rw [exceptMapM_one]
  by_cases hl : isListColumn table name = true
  · simp only [hl, if_true]
    rfl
  · simp only [Bool.not_eq_true] at hl
    simp only [hl, if_false, Bool.false_eq_true]
    cases h : cells.mapM convert_numpy_types <;> simp [h, Except.map]

/-- On a column that is neither an array column nor `measurements`,
`cleanCell` is the numpy conversion of the (possibly boolean-coerced)
NaN-replaced value. -/
theorem cleanCell_plain (table col : String) (hl : isListColumn table col = false)
    (hm : (table == "inventory_items" && col == "measurements") = false) (v : PyVal) :
    cleanCell table col v =
      convert_numpy_types
        (if isBoolColumn table col then .vBool (pyTruth (replaceNanNone v))
        else replaceNanNone v) := by
  unfold cleanCell
  rw [hl, hm]
  simp only [if_false_bool, if_false, Bool.false_eq_true]
  rw [exceptPure_eq_ok, exceptBind_ok]

/-- Consistency of the frame-level and cell-level embeddings: on a
one-column, one-cell frame, `clean_dataframe` computes exactly
`cleanCell`. -/
theorem clean_dataframe_single_cell (table name : String) (v : PyVal) :
    (clean_dataframe [(name, [v])] table).2 =
      (cleanCell table name v).map fun r => [(name, [r])] := by
  have h2 : (clean_dataframe [(name, [v])] table).2 =
      (cleanStep3 table (cleanStep2 table (cleanStep1 [(name, [v])])) >>= fun d3 =>
        cleanStep5 table (cleanStep4 table d3)) := rfl
  rw [h2, cleanStep1_single, cleanStep2_single]
  simp only [List.map_cons, List.map_nil]
  by_cases hl : isListColumn table name = true
  · obtain ⟨hb, hm⟩ := list_col_props table name hl
    rw [hl]
    simp only [if_true_bool, if_true]
    rw [cleanStep3_single, hm]
    simp only [if_false_bool, if_false, Bool.false_eq_true]
    rw [exceptBind_ok, cleanStep4_single, hb]
    simp only [if_false_bool, if_false, Bool.false_eq_true]
    rw [cleanStep5_single, hl]
    simp only [if_true_bool, if_true]
    rw [cleanCell_list_col table name hl, exceptMap_ok]
  · simp only [Bool.not_eq_true] at hl
    rw [hl]
    simp only [if_false_bool, if_false, Bool.false_eq_true]
    rw [cleanStep3_single]
    by_cases hm : (table == "inventory_items" && name == "measurements") = true
    · obtain ⟨ht, hc0⟩ := Bool.and_eq_true_iff.mp hm
      rw [beq_iff_eq] at ht hc0
      subst ht
      subst hc0
      simp only [beq_self_eq_true, Bool.and_self, if_true_bool, if_true]
      rw [exceptMapM_one]
      rw [show cleanCell "inventory_items" "measurements" v =
          (parse_json_string (replaceNanNone v) >>= fun v3 => convert_numpy_types v3)
        from rfl]
      cases hj : parse_json_string (replaceNanNone v)
      · simp only [exceptBind_error, exceptMap_error]
      · rename_i r
        simp only [exceptBind_ok, exceptMap_ok]
        rw [cleanStep4_single]
        rw [show isBoolColumn "inventory_items" "measurements" = false from rfl]
        simp only [if_false_bool, if_false, Bool.false_eq_true]
        rw [cleanStep5_single]
        rw [show isListColumn "inventory_items" "measurements" = false from rfl]
        simp only [if_false_bool, if_false, Bool.false_eq_true]
        rw [exceptMapM_one]
        cases hc : convert_numpy_types r <;> simp only [exceptMap_error, exceptMap_ok]
    · simp only [Bool.not_eq_true] at hm
      rw [hm]
      simp only [if_false_bool, if_false, Bool.false_eq_true]
      rw [exceptBind_ok, cleanStep4_single, cleanCell_plain table name hl hm v]
      by_cases hb : isBoolColumn table name = true
      · rw [hb]
        simp only [if_true_bool, if_true]
        rw [cleanStep5_single, hl]
        simp only [if_false_bool, if_false, Bool.false_eq_true, List.map_cons, List.map_nil]
        rw [exceptMapM_one]
        cases hc : convert_numpy_types (.vBool (pyTruth (replaceNanNone v))) <;>
          simp only [exceptMap_error, exceptMap_ok]
      · simp only [Bool.not_eq_true] at hb
        rw [hb]
        simp only [if_false_bool, if_false, Bool.false_eq_true]
        rw [cleanStep5_single, hl]
        simp only [if_false_bool, if_false, Bool.false_eq_true]
        rw [exceptMapM_one]
        cases hc : convert_numpy_types (replaceNanNone v) <;>
          simp only [exceptMap_error, exceptMap_ok]

end VintageDemo
